import Mathlib

/-!
Verification of the data-preparation and aggregation pipeline of
`src/streamlit_app.py` (a Spotify track-analysis dashboard).

The pipeline is shallowly embedded:
  * a pandas row becomes a `RawRecord`; a CSV cell that is empty or absent is
    read by `pd.read_csv` as NaN, which we model as `none`;
  * `load_and_preprocess_data` (lines 7-28) is split into its two stages,
    `clean` (dropna / fillna / to_datetime, lines 11-15) and `derive`
    (feature engineering, lines 17-26);
  * the four aggregate views `get_top_artists`, `get_popularity_by_genre`,
    `get_correlation_matrix` and the `popularity_by_year` computation
    (line 112) are embedded as pure functions over lists of records;
  * floating point numbers are modelled as exact rationals, except the
    Pearson correlation coefficient which needs a real square root;
  * a pandas NaN result cell is modelled as `none`.
-/

namespace SpotifyApp

/-- Splitting a character list on the exact two-character separator
`", "`, mirroring Python `str.split(', ')` as used at line 37 of the
source (`df['artist_genres'].str.split(', ')`). -/
def splitCS : List Char → List (List Char)
  | [] => [[]]
  | [c] => [[c]]
  | c1 :: c2 :: rest =>
    if c1 = ',' ∧ c2 = ' ' then [] :: splitCS rest
    else
      match splitCS (c2 :: rest) with
      | [] => [[c1]]
      | t :: ts => (c1 :: t) :: ts

/-- Splitting a character list on the single character `-`,
used to parse ISO dates. -/
def splitDash : List Char → List (List Char)
  | [] => [[]]
  | c :: rest =>
    if c = '-' then [] :: splitDash rest
    else
      match splitDash rest with
      | [] => [[c]]
      | t :: ts => (c :: t) :: ts

/-- Reads a nonempty all-digit character list as a natural number. -/
def digitsVal (cs : List Char) : Option ℕ :=
  if cs = [] then none
  else if cs.all Char.isDigit then
    some (cs.foldl (fun n c => 10 * n + (c.toNat - 48)) 0)
  else none

/-- Date parsing, embedding `pd.to_datetime` (line 15 of the source) on
ISO `yyyy-mm-dd` strings: the result is the `(year, month, day)` triple, or
`none` when the string is not a parseable calendar date. -/
def parseDate (s : String) : Option (ℕ × ℕ × ℕ) :=
  match (splitDash s.data).map digitsVal with
  | [some y, some m, some d] =>
    if 1 ≤ m ∧ m ≤ 12 ∧ 1 ≤ d ∧ d ≤ 31 then some (y, m, d) else none
  | _ => none

/-- One raw row of the input table, as produced by `pd.read_csv` (line 8).
`pd.read_csv` stores a missing or empty cell as NaN, modelled by `none` in
the two nullable text fields. -/
structure RawRecord where
  artist_name : Option String
  artist_genres : Option String
  track_popularity : ℚ
  artist_popularity : ℚ
  artist_followers : ℚ
  track_duration_min : ℚ
  album_total_tracks : ℚ
  album_release_date : String

/-- A cleaned row: artist name present, genre list defaulted to
`"unknown"`, release date parsed. -/
structure CleanRecord where
  artist_name : String
  artist_genres : String
  track_popularity : ℚ
  artist_popularity : ℚ
  artist_followers : ℚ
  track_duration_min : ℚ
  album_total_tracks : ℚ
  release_date : ℕ × ℕ × ℕ

/-- The cleaning stage of `load_and_preprocess_data` (lines 11-15):
`df.dropna(subset=['artist_name'])` drops rows whose artist name is NaN,
`df['artist_genres'].fillna('unknown')` fills the genre field, and
`pd.to_datetime(df['album_release_date'])` parses every retained row's
date, raising (modelled by `Except.error`) at the first unparseable one. -/
def clean : List RawRecord → Except String (List CleanRecord)
  | [] => Except.ok []
  | r :: rest =>
    match r.artist_name with
    | none => clean rest
    | some name =>
      match parseDate r.album_release_date with
      | none => Except.error "MalformedDateError"
      | some d =>
        match clean rest with
        | Except.error e => Except.error e
        | Except.ok cs =>
          Except.ok
            ({ artist_name := name
               artist_genres := r.artist_genres.getD "unknown"
               track_popularity := r.track_popularity
               artist_popularity := r.artist_popularity
               artist_followers := r.artist_followers
               track_duration_min := r.track_duration_min
               album_total_tracks := r.album_total_tracks
               release_date := d } :: cs)

/-- The popularity binning of lines 21-23 of the source:
`pd.cut(df['track_popularity'], bins=[0, 25, 50, 75, 100],
labels=['Low', 'Medium', 'High', 'Very High'], right=False)`.
With `right=False` every bin is left-closed and right-open, including the
last one, and a value falling in no bin is NaN (`none`). -/
def popularityCategory (p : ℚ) : Option String :=
  if 0 ≤ p ∧ p < 25 then some "Low"
  else if 25 ≤ p ∧ p < 50 then some "Medium"
  else if 50 ≤ p ∧ p < 75 then some "High"
  else if 75 ≤ p ∧ p < 100 then some "Very High"
  else none

/-- A derived row: the cleaned fields plus the three engineered features
of lines 17-26. -/
structure DerivedRecord where
  artist_name : String
  artist_genres : String
  track_popularity : ℚ
  artist_popularity : ℚ
  artist_followers : ℚ
  track_duration_min : ℚ
  album_total_tracks : ℚ
  release_date : ℕ × ℕ × ℕ
  duration_in_minutes : ℚ
  popularity_category : Option String
  release_year : ℕ

/-- Feature derivation for one record (lines 17-26): duration passthrough,
popularity binning and year extraction. -/
def deriveRecord (c : CleanRecord) : DerivedRecord :=
  { artist_name := c.artist_name
    artist_genres := c.artist_genres
    track_popularity := c.track_popularity
    artist_popularity := c.artist_popularity
    artist_followers := c.artist_followers
    track_duration_min := c.track_duration_min
    album_total_tracks := c.album_total_tracks
    release_date := c.release_date
    duration_in_minutes := c.track_duration_min
    popularity_category := popularityCategory c.track_popularity
    release_year := c.release_date.1 }

/-- The feature-engineering stage of `load_and_preprocess_data`
(lines 17-26); no record is dropped and no error is raised here. -/
def derive (cs : List CleanRecord) : List DerivedRecord :=
  cs.map deriveRecord

/-- The whole of `load_and_preprocess_data` (lines 7-28): clean then
derive. -/
def load_and_preprocess_data (rows : List RawRecord) :
    Except String (List DerivedRecord) :=
  match clean rows with
  | Except.error e => Except.error e
  | Except.ok cs => Except.ok (derive cs)

/-- Arithmetic mean of a list of rationals, as pandas `.mean()` computes
it on a group (division in ℚ; the empty list gives `0/0 = 0`, but every
group below is built from at least one record). -/
def mean (l : List ℚ) : ℚ :=
  l.sum / l.length

/-- Descending order on `(name, mean)` pairs: the sort relation of
`.sort_values(ascending=False)` used at lines 32 and 38. -/
def popDesc (a b : String × ℚ) : Prop :=
  b.2 ≤ a.2

instance : DecidableRel popDesc :=
  fun a b => inferInstanceAs (Decidable (b.2 ≤ a.2))

instance : IsTotal (String × ℚ) popDesc :=
  ⟨fun a b => le_total b.2 a.2⟩

instance : IsTrans (String × ℚ) popDesc :=
  ⟨fun _ _ _ h1 h2 => le_trans h2 h1⟩

/-- The distinct artist names of a record set: the group keys of
`df.groupby('artist_name')` at line 32. -/
def artistNames (rs : List DerivedRecord) : List String :=
  (rs.map (fun r => r.artist_name)).dedup

/-- Mean track popularity of one artist's records: the aggregated value
of `df.groupby('artist_name')['track_popularity'].mean()` at line 32. -/
def artistMean (rs : List DerivedRecord) (a : String) : ℚ :=
  mean ((rs.filter (fun r => r.artist_name = a)).map (fun r => r.track_popularity))

/-- `get_top_artists(df, n)` (lines 30-33): group by artist name, mean
popularity per group, sort descending by mean, keep the first `n`. -/
def get_top_artists (rs : List DerivedRecord) (n : ℕ) : List (String × ℚ) :=
  (List.insertionSort popDesc
    ((artistNames rs).map (fun a => (a, artistMean rs a)))).take n

/-- The genre tokens of one record: `str.split(', ')` at line 37. -/
def genreTokens (r : DerivedRecord) : List String :=
  (splitCS r.artist_genres.data).map (fun cs => String.mk cs)

/-- The `.explode('artist_genres')` step of line 37: one
`(genre token, track popularity)` row per token, multiplicity
preserving. -/
def explodeGenres (rs : List DerivedRecord) : List (String × ℚ) :=
  rs.foldr (fun r acc => (genreTokens r).map (fun g => (g, r.track_popularity)) ++ acc) []

/-- The distinct genre tokens: the group keys of
`groupby('artist_genres')` at line 38. -/
def genreNames (rs : List DerivedRecord) : List String :=
  ((explodeGenres rs).map Prod.fst).dedup

/-- Mean popularity of one genre token over the exploded rows. -/
def genreMean (rs : List DerivedRecord) (g : String) : ℚ :=
  mean (((explodeGenres rs).filter (fun p => p.1 = g)).map Prod.snd)

/-- `get_popularity_by_genre(df)` (lines 35-39): explode the genre lists,
group by genre token, mean popularity per group, sort descending. -/
def get_popularity_by_genre (rs : List DerivedRecord) : List (String × ℚ) :=
  List.insertionSort popDesc
    ((genreNames rs).map (fun g => (g, genreMean rs g)))

/-- The five numeric columns of `get_correlation_matrix` (line 43), in
their fixed order. -/
inductive NumField
  | track_popularity
  | artist_popularity
  | artist_followers
  | track_duration_min
  | album_total_tracks
deriving DecidableEq

/-- The value a record holds in each numeric column. -/
def fieldVal : NumField → DerivedRecord → ℚ
  | NumField.track_popularity, r => r.track_popularity
  | NumField.artist_popularity, r => r.artist_popularity
  | NumField.artist_followers, r => r.artist_followers
  | NumField.track_duration_min, r => r.track_duration_min
  | NumField.album_total_tracks, r => r.album_total_tracks

/-- Column mean over the record set. -/
def fmean (rs : List DerivedRecord) (f : NumField) : ℚ :=
  mean (rs.map (fieldVal f))

/-- Covariance of two columns (population form; Pearson correlation is
invariant under the `1/n` versus `1/(n-1)` normalisation, so this is the
same coefficient pandas `.corr()` computes). -/
def fcov (rs : List DerivedRecord) (f g : NumField) : ℚ :=
  mean (rs.map (fun r => (fieldVal f r - fmean rs f) * (fieldVal g r - fmean rs g)))

/-- Variance of a column. -/
def fvar (rs : List DerivedRecord) (f : NumField) : ℚ :=
  fcov rs f f

/-- One cell of `df[numerical_cols].corr()` (line 44): the Pearson
coefficient `cov(f,g) / sqrt(var f * var g)`, and NaN (`none`) whenever
either column has zero variance — pandas never raises here. -/
noncomputable def get_correlation_matrix (rs : List DerivedRecord) (f g : NumField) :
    Option ℝ :=
  if fvar rs f = 0 ∨ fvar rs g = 0 then none
  else some ((fcov rs f g : ℝ) / Real.sqrt ((fvar rs f : ℝ) * (fvar rs g : ℝ)))

/-- Sorted insertion of a year into a strictly increasing list of years,
dropping duplicates: pandas `groupby` keys are the distinct group values
in ascending order. -/
def insertYear (y : ℕ) : List ℕ → List ℕ
  | [] => [y]
  | z :: zs =>
    if y < z then y :: z :: zs
    else if y = z then z :: zs
    else z :: insertYear y zs

/-- The distinct release years of the record set, ascending: the group
keys of `df.groupby('release_year')` at line 112. -/
def yearKeys (rs : List DerivedRecord) : List ℕ :=
  rs.foldr (fun r acc => insertYear r.release_year acc) []

/-- Mean track popularity of one release year's records. -/
def yearMean (rs : List DerivedRecord) (y : ℕ) : ℚ :=
  mean ((rs.filter (fun r => r.release_year = y)).map (fun r => r.track_popularity))

/-- The yearly trend of line 112:
`df.groupby('release_year')['track_popularity'].mean().reset_index()`,
one `(year, mean popularity)` row per distinct year, ascending by year. -/
def popularity_by_year (rs : List DerivedRecord) : List (ℕ × ℚ) :=
  (yearKeys rs).map (fun y => (y, yearMean rs y))

/-! ## Helper lemmas -/

/-- Full characterisation of the `pd.cut(..., right=False)` binning: all
four bins are left-closed right-open, and any value below 0 or at or
above 100 falls in no bin. -/
theorem popularityCategory_spec (p : ℚ) :
    (popularityCategory p = some "Low" ↔ 0 ≤ p ∧ p < 25) ∧
    (popularityCategory p = some "Medium" ↔ 25 ≤ p ∧ p < 50) ∧
    (popularityCategory p = some "High" ↔ 50 ≤ p ∧ p < 75) ∧
    (popularityCategory p = some "Very High" ↔ 75 ≤ p ∧ p < 100) ∧
    (popularityCategory p = none ↔ p < 0 ∨ 100 ≤ p) := by
  unfold popularityCategory
  split_ifs with h1 h2 h3 h4 <;>
    refine ⟨?_, ?_, ?_, ?_, ?_⟩ <;>
    constructor <;>
    intro hx <;>
    try simp_all
  all_goals try (rcases hx with hx | hx <;> linarith)
  all_goals try linarith
  rcases le_or_lt 0 p with h0 | h0
  · exact Or.inr (h4 (h3 (h2 (h1 h0))))
  · exact Or.inl h0

theorem mem_derive {cs : List CleanRecord} {d : DerivedRecord}
    (hd : d ∈ derive cs) : ∃ c ∈ cs, d = deriveRecord c := by
  unfold derive at hd
  rcases List.mem_map.mp hd with ⟨c, hc, hEq⟩
  exact ⟨c, hc, hEq.symm⟩

/-- A single record with the given track popularity, used to instantiate
the binning theorems. -/
def samplePop (p : ℚ) : CleanRecord :=
  { artist_name := "A"
    artist_genres := "Pop"
    track_popularity := p
    artist_popularity := 50
    artist_followers := 1000
    track_duration_min := 3
    album_total_tracks := 10
    release_date := (2020, 1, 1) }

/-! ## C1: popularity binning -/

/-- C1, counterexample: the claim says a track popularity of exactly 100
is assigned "Very High"; in the code `pd.cut` is called with
`right=False`, so the last bin is `[75,100)` and a popularity of 100
falls in no bin — the record's category is NaN (`none`). -/
theorem popularity_100_has_no_category :
    (derive [samplePop 100]).map (fun d => d.popularity_category) = [none] ∧
    (derive [samplePop 100]).map (fun d => d.popularity_category) ≠
      [some "Very High"] := by
  have h1 : (derive [samplePop 100]).map (fun d => d.popularity_category) =
      [none] := by
    norm_num [derive, deriveRecord, samplePop, popularityCategory]
  refine ⟨h1, ?_⟩
  rw [h1]
  simp

/-- C1, amended: every record processed by `derive` is binned by the
half-open bins `[0,25) → Low`, `[25,50) → Medium`, `[50,75) → High` and
`[75,100) → Very High`; the final bin is also half-open, so a track
popularity of exactly 100 (like any value outside `[0,100)`) receives no
category at all (NaN), not "Very High". -/
theorem derive_popularity_bins (cs : List CleanRecord) (d : DerivedRecord)
    (hd : d ∈ derive cs) :
    (d.popularity_category = some "Low" ↔
      0 ≤ d.track_popularity ∧ d.track_popularity < 25) ∧
    (d.popularity_category = some "Medium" ↔
      25 ≤ d.track_popularity ∧ d.track_popularity < 50) ∧
    (d.popularity_category = some "High" ↔
      50 ≤ d.track_popularity ∧ d.track_popularity < 75) ∧
    (d.popularity_category = some "Very High" ↔
      75 ≤ d.track_popularity ∧ d.track_popularity < 100) ∧
    (d.popularity_category = none ↔
      d.track_popularity < 0 ∨ 100 ≤ d.track_popularity) := by
  rcases mem_derive hd with ⟨c, _, rfl⟩
  exact popularityCategory_spec c.track_popularity

theorem derive_popularity_bins_witness :
    ((deriveRecord (samplePop 10)).popularity_category = some "Low" ↔
      0 ≤ (10 : ℚ) ∧ (10 : ℚ) < 25) ∧
    ((deriveRecord (samplePop 10)).popularity_category = some "Medium" ↔
      25 ≤ (10 : ℚ) ∧ (10 : ℚ) < 50) ∧
    ((deriveRecord (samplePop 10)).popularity_category = some "High" ↔
      50 ≤ (10 : ℚ) ∧ (10 : ℚ) < 75) ∧
    ((deriveRecord (samplePop 10)).popularity_category = some "Very High" ↔
      75 ≤ (10 : ℚ) ∧ (10 : ℚ) < 100) ∧
    ((deriveRecord (samplePop 10)).popularity_category = none ↔
      (10 : ℚ) < 0 ∨ 100 ≤ (10 : ℚ)) :=
  derive_popularity_bins [samplePop 10] (deriveRecord (samplePop 10))
    (by simp [derive])

/-! ## C2: out-of-range popularity -/

/-- A raw row whose track popularity (150) lies outside `[0,100]`, with
every other field well formed. -/
def rawOver : RawRecord :=
  { artist_name := some "A"
    artist_genres := some "Pop"
    track_popularity := 150
    artist_popularity := 50
    artist_followers := 1000
    track_duration_min := 3
    album_total_tracks := 10
    album_release_date := "2020-01-01" }

/-- C2, counterexample: the claim says an input containing a track
popularity outside `[0,100]` makes `derive` fail with `OutOfRangeError`.
The code performs no range check: the whole pipeline succeeds on a
popularity of 150 (it never returns an error) and the record simply gets
a NaN category. -/
theorem out_of_range_is_not_rejected :
    load_and_preprocess_data [rawOver] =
      Except.ok [deriveRecord (samplePop 150)] ∧
    (∀ e, load_and_preprocess_data [rawOver] ≠ Except.error e) ∧
    (deriveRecord (samplePop 150)).popularity_category = none := by
  have hok : load_and_preprocess_data [rawOver] =
      Except.ok [deriveRecord (samplePop 150)] := rfl
  refine ⟨hok, ?_, ?_⟩
  · intro e h
    rw [hok] at h
    simp at h
  · norm_num [deriveRecord, samplePop, popularityCategory]

/-- C2, amended: `derive` never fails; it processes every record (the
output has one record per input record), and a record whose track
popularity lies outside `[0,100)` is retained with no popularity
category (NaN) rather than raising any error. -/
theorem derive_out_of_range (cs : List CleanRecord) (d : DerivedRecord)
    (hd : d ∈ derive cs)
    (hp : d.track_popularity < 0 ∨ 100 ≤ d.track_popularity) :
    d.popularity_category = none ∧ (derive cs).length = cs.length := by
  refine ⟨?_, by simp [derive]⟩
  rcases mem_derive hd with ⟨c, _, rfl⟩
  exact (popularityCategory_spec c.track_popularity).2.2.2.2.mpr hp

theorem derive_out_of_range_witness :
    (deriveRecord (samplePop 150)).popularity_category = none ∧
    (derive [samplePop 150]).length = [samplePop 150].length :=
  derive_out_of_range [samplePop 150] (deriveRecord (samplePop 150))
    (by simp [derive]) (Or.inr (by norm_num [deriveRecord, samplePop]))

/-! ## Cleaning-stage lemmas -/

theorem clean_ok_length (rows : List RawRecord) :
    ∀ out, clean rows = Except.ok out →
      out.length = (rows.filter (fun r => r.artist_name.isSome)).length := by
  induction rows with
  | nil =>
    intro out h
    simp only [clean] at h
    obtain rfl := Except.ok.inj h
    simp
  | cons r rest ih =>
    intro out h
    unfold clean at h
    cases hn : r.artist_name with
    | none =>
      rw [hn] at h
      rw [List.filter_cons]
      simp only [hn, Option.isSome_none, Bool.false_eq_true, if_false]
      exact ih out h
    | some name =>
      rw [hn] at h
      cases hp : parseDate r.album_release_date with
      | none => rw [hp] at h; simp at h
      | some d =>
        rw [hp] at h
        cases hc : clean rest with
        | error e => rw [hc] at h; simp at h
        | ok cs =>
          rw [hc] at h
          obtain rfl := Except.ok.inj h
          rw [List.filter_cons]
          simp only [hn, Option.isSome_some, if_true, List.length_cons]
          rw [ih cs hc]

theorem clean_error_of_bad_date (rows : List RawRecord)
    (hbad : ∃ r ∈ rows, r.artist_name.isSome = true ∧
      parseDate r.album_release_date = none) :
    clean rows = Except.error "MalformedDateError" := by
  induction rows with
  | nil => simp at hbad
  | cons r rest ih =>
    rcases hbad with ⟨r0, hmem, hsome, hdate⟩
    unfold clean
    rcases List.mem_cons.mp hmem with rfl | hmem0
    · rcases Option.isSome_iff_exists.mp hsome with ⟨name, hn⟩
      rw [hn, hdate]
    · have hrest := ih ⟨r0, hmem0, hsome, hdate⟩
      cases hn : r.artist_name with
      | none => exact hrest
      | some name =>
        cases hp : parseDate r.album_release_date with
        | none => rfl
        | some d => rw [hrest]

theorem clean_ok_dates (rows : List RawRecord) :
    ∀ out, clean rows = Except.ok out →
      ∀ r ∈ rows, r.artist_name.isSome = true →
        (parseDate r.album_release_date).isSome = true := by
  induction rows with
  | nil => intro out _ r hmem; simp at hmem
  | cons r rest ih =>
    intro out h r0 hmem hsome
    unfold clean at h
    cases hn : r.artist_name with
    | none =>
      rw [hn] at h
      rcases List.mem_cons.mp hmem with rfl | hmem0
      · rw [hn] at hsome; simp at hsome
      · exact ih out h r0 hmem0 hsome
    | some name =>
      rw [hn] at h
      cases hp : parseDate r.album_release_date with
      | none => rw [hp] at h; simp at h
      | some d =>
        rw [hp] at h
        rcases List.mem_cons.mp hmem with rfl | hmem0
        · rw [hp]; rfl
        · cases hc : clean rest with
          | error e => rw [hc] at h; simp at h
          | ok cs => exact ih cs hc r0 hmem0 hsome

theorem clean_ok_of_good_dates (rows : List RawRecord)
    (hgood : ∀ r ∈ rows, r.artist_name.isSome = true →
      (parseDate r.album_release_date).isSome = true) :
    ∃ out, clean rows = Except.ok out := by
  induction rows with
  | nil => exact ⟨[], rfl⟩
  | cons r rest ih =>
    obtain ⟨cs, hcs⟩ := ih (fun r0 hm hs => hgood r0 (List.mem_cons_of_mem r hm) hs)
    unfold clean
    cases hn : r.artist_name with
    | none => exact ⟨cs, hcs⟩
    | some name =>
      have hps : (parseDate r.album_release_date).isSome = true := by
        apply hgood r (List.mem_cons_self r rest)
        rw [hn]; rfl
      rcases Option.isSome_iff_exists.mp hps with ⟨d, hd⟩
      rw [hd, hcs]
      exact ⟨_, rfl⟩

/-! ## C7: dropping records with a missing artist name -/

/-- The raw rows and expected cleaned row used to instantiate the
cleaning theorems. -/
def rawA : RawRecord :=
  { artist_name := some "A"
    artist_genres := some "Pop"
    track_popularity := 80
    artist_popularity := 50
    artist_followers := 1000
    track_duration_min := 3
    album_total_tracks := 10
    album_release_date := "2020-01-01" }

def rawNoName : RawRecord :=
  { artist_name := none
    artist_genres := some "Rock"
    track_popularity := 40
    artist_popularity := 30
    artist_followers := 10
    track_duration_min := 3
    album_total_tracks := 10
    album_release_date := "2021-05-02" }

def cleanA : CleanRecord :=
  { artist_name := "A"
    artist_genres := "Pop"
    track_popularity := 80
    artist_popularity := 50
    artist_followers := 1000
    track_duration_min := 3
    album_total_tracks := 10
    release_date := (2020, 1, 1) }

/-- C7: `df.dropna(subset=['artist_name'])` (line 11) silently drops
exactly the records whose artist name is missing (`pd.read_csv` stores a
missing or empty cell as NaN) and keeps every other record, so when the
cleaning succeeds the output length is the number of rows with a present
artist name; in particular an input with exactly one missing-name row
yields one record fewer than the input. -/
theorem clean_drops_missing_artists (rows : List RawRecord)
    (out : List CleanRecord) (h : clean rows = Except.ok out) :
    out.length = (rows.filter (fun r => r.artist_name.isSome)).length ∧
    ((rows.filter (fun r => r.artist_name = none)).length = 1 →
      out.length = rows.length - 1) := by
  have h1 := clean_ok_length rows out h
  refine ⟨h1, fun hone => ?_⟩
  have htot := List.length_eq_length_filter_add
    (l := rows) (fun r => r.artist_name.isSome)
  have hcong : rows.filter (fun r => !r.artist_name.isSome) =
      rows.filter (fun r => r.artist_name = none) := by
    apply List.filter_congr
    intro a _
    cases a.artist_name <;> simp
  rw [hcong, hone] at htot
  omega

theorem clean_drops_missing_artists_witness :
    ([cleanA].length =
      ([rawA, rawNoName].filter (fun r => r.artist_name.isSome)).length) ∧
    (([rawA, rawNoName].filter (fun r => r.artist_name = none)).length = 1 →
      [cleanA].length = [rawA, rawNoName].length - 1) :=
  clean_drops_missing_artists [rawA, rawNoName] [cleanA] rfl

/-! ## C8: malformed release dates abort the cleaning stage -/

/-- C8: `pd.to_datetime` (line 15, default `errors='raise'`) makes the
cleaning all-or-nothing over the retained records: if any record that
survives the artist-name filter has an unparseable release date, `clean`
returns the `MalformedDateError` failure and no partial result; and
whenever `clean` succeeds, every retained record's date did parse (the
output stores the parsed dates). -/
theorem clean_malformed_date_all_or_nothing (rows : List RawRecord) :
    ((∃ r ∈ rows, r.artist_name.isSome = true ∧
        parseDate r.album_release_date = none) →
      clean rows = Except.error "MalformedDateError") ∧
    (∀ out, clean rows = Except.ok out →
      ∀ r ∈ rows, r.artist_name.isSome = true →
        (parseDate r.album_release_date).isSome = true) :=
  ⟨clean_error_of_bad_date rows, clean_ok_dates rows⟩

def rawBadDate : RawRecord :=
  { artist_name := some "B"
    artist_genres := some "Rock"
    track_popularity := 40
    artist_popularity := 30
    artist_followers := 10
    track_duration_min := 3
    album_total_tracks := 10
    album_release_date := "not-a-date" }

theorem clean_malformed_date_witness :
    clean [rawA, rawBadDate] = Except.error "MalformedDateError" :=
  (clean_malformed_date_all_or_nothing [rawA, rawBadDate]).1
    ⟨rawBadDate, by simp, rfl, rfl⟩

/-! ## C3: behaviour on the empty record set -/

/-- C3, counterexample: the claim says `correlationMatrix` on an empty
record set fails with `InsufficientDataError`. The code has no such
error: `df[numerical_cols].corr()` on an empty frame returns a matrix of
NaN cells, so every cell of the embedded matrix is the defined value
`none`, and no failure occurs. -/
theorem correlation_matrix_empty_is_defined :
    get_correlation_matrix [] NumField.track_popularity
      NumField.artist_popularity = none := by
  simp [get_correlation_matrix, fvar, fcov, mean]

/-- C3, amended: on the empty derived-record set the three sequence
views return an empty result with no error, and `correlationMatrix` also
does not fail: it returns the all-NaN matrix (every cell `none`) because
every column has zero variance over zero samples. -/
theorem empty_input_behaviour :
    (∀ n, get_top_artists [] n = []) ∧
    get_popularity_by_genre [] = [] ∧
    popularity_by_year [] = [] ∧
    ∀ f g, get_correlation_matrix [] f g = none := by
  refine ⟨?_, ?_, ?_, ?_⟩
  · intro n
    simp [get_top_artists, artistNames, List.insertionSort]
  · simp [get_popularity_by_genre, genreNames, explodeGenres, List.insertionSort]
  · simp [popularity_by_year, yearKeys]
  · intro f g
    simp [get_correlation_matrix, fvar, fcov, mean]

/-! ## C4: the genre-explosion scenario -/

def genreRecA : DerivedRecord :=
  { artist_name := "A"
    artist_genres := "Pop, Rock"
    track_popularity := 80
    artist_popularity := 50
    artist_followers := 1000
    track_duration_min := 3
    album_total_tracks := 10
    release_date := (2020, 1, 1)
    duration_in_minutes := 3
    popularity_category := popularityCategory 80
    release_year := 2020 }

def genreRecB : DerivedRecord :=
  { artist_name := "B"
    artist_genres := "Pop"
    track_popularity := 40
    artist_popularity := 30
    artist_followers := 500
    track_duration_min := 3
    album_total_tracks := 10
    release_date := (2021, 1, 1)
    duration_in_minutes := 3
    popularity_category := popularityCategory 40
    release_year := 2021 }

/-- C4: `get_popularity_by_genre` explodes each record into one row per
genre token (keeping multiplicities), groups by token, takes the mean
popularity per group and sorts descending; on artist "A" with
popularity 80 and genres "Pop, Rock" together with artist "B" with
popularity 40 and genre "Pop" it returns exactly
`[("Rock", 80), ("Pop", 60)]`. -/
theorem genre_popularity_scenario :
    get_popularity_by_genre [genreRecA, genreRecB] =
      [("Rock", 80), ("Pop", 60)] := by
  have hA : genreTokens genreRecA = ["Pop", "Rock"] := by decide
  have hB : genreTokens genreRecB = ["Pop"] := by decide
  have hexp : explodeGenres [genreRecA, genreRecB] =
      [("Pop", 80), ("Rock", 80), ("Pop", 40)] := by
    simp only [explodeGenres, List.foldr_cons, List.foldr_nil, List.append_nil]
    rw [hA, hB]
    simp [genreRecA, genreRecB]
  have hnames : genreNames [genreRecA, genreRecB] = ["Rock", "Pop"] := by
    simp only [genreNames, hexp]
    decide
  have hrock : genreMean [genreRecA, genreRecB] "Rock" = 80 := by
    simp [genreMean, hexp, mean]
  have hpop : genreMean [genreRecA, genreRecB] "Pop" = 60 := by
    simp [genreMean, hexp, mean]
    norm_num
  simp [get_popularity_by_genre, hnames, hrock, hpop,
    List.insertionSort, List.orderedInsert, popDesc]
  norm_num

/-! ## C10: the exact ", " delimiter and the "unknown" sentinel -/

def commaRec : DerivedRecord :=
  { artist_name := "C"
    artist_genres := "Pop,Rock"
    track_popularity := 70
    artist_popularity := 20
    artist_followers := 5
    track_duration_min := 3
    album_total_tracks := 10
    release_date := (2019, 3, 4)
    duration_in_minutes := 3
    popularity_category := popularityCategory 70
    release_year := 2019 }

def unknownRec : DerivedRecord :=
  { artist_name := "D"
    artist_genres := "unknown"
    track_popularity := 30
    artist_popularity := 20
    artist_followers := 5
    track_duration_min := 3
    album_total_tracks := 10
    release_date := (2019, 3, 4)
    duration_in_minutes := 3
    popularity_category := popularityCategory 30
    release_year := 2019 }

def rawNoGenre : RawRecord :=
  { artist_name := some "D"
    artist_genres := none
    track_popularity := 30
    artist_popularity := 20
    artist_followers := 5
    track_duration_min := 3
    album_total_tracks := 10
    album_release_date := "2019-03-04" }

def cleanNoGenre : CleanRecord :=
  { artist_name := "D"
    artist_genres := "unknown"
    track_popularity := 30
    artist_popularity := 20
    artist_followers := 5
    track_duration_min := 3
    album_total_tracks := 10
    release_date := (2019, 3, 4) }

/-- C10: the genre split of line 37 uses the exact two-character
delimiter ", ": a genre field "Pop,Rock" (comma, no space) stays one
single token; and a missing genre field is filled by line 12 with the
sentinel "unknown", which splits into the single-element list
["unknown"]. -/
theorem genre_split_exact_delimiter :
    genreTokens commaRec = ["Pop,Rock"] ∧
    clean [rawNoGenre] = Except.ok [cleanNoGenre] ∧
    genreTokens unknownRec = ["unknown"] :=
  ⟨by decide, rfl, by decide⟩

/-! ## C5: top-N artists -/

theorem artistNames_nodup (rs : List DerivedRecord) : (artistNames rs).Nodup :=
  List.nodup_dedup _

theorem map_fst_artistMeans (rs : List DerivedRecord) :
    ((artistNames rs).map (fun a => (a, artistMean rs a))).map Prod.fst =
      artistNames rs := by
  induction artistNames rs with
  | nil => rfl
  | cons a as ih => simp [ih]

/-- C5: `get_top_artists(df, n)` (lines 30-33) returns at most `n`
entries, its artist names are pairwise distinct (they are the group keys
of the `groupby`), the entries are sorted descending by mean track
popularity, and when `n` is at least the number of distinct artists the
result contains every artist (no error is possible: the function is
total). -/
theorem get_top_artists_spec (rs : List DerivedRecord) (n : ℕ) (hn : 1 ≤ n) :
    (get_top_artists rs n).length ≤ n ∧
    ((get_top_artists rs n).map Prod.fst).Nodup ∧
    (get_top_artists rs n).Pairwise popDesc ∧
    (∀ e ∈ get_top_artists rs n, e.2 = artistMean rs e.1) ∧
    ((artistNames rs).length ≤ n →
      ((get_top_artists rs n).map Prod.fst).Perm (artistNames rs)) := by
  have hperm : (List.insertionSort popDesc
      ((artistNames rs).map (fun a => (a, artistMean rs a)))).Perm
        ((artistNames rs).map (fun a => (a, artistMean rs a))) :=
    List.perm_insertionSort popDesc _
  have hfstperm : ((List.insertionSort popDesc
      ((artistNames rs).map (fun a => (a, artistMean rs a)))).map Prod.fst).Perm
        (artistNames rs) := by
    have := hperm.map Prod.fst
    rwa [map_fst_artistMeans] at this
  refine ⟨List.length_take_le n _, ?_, ?_, ?_, ?_⟩
  · rw [get_top_artists, List.map_take]
    exact (hfstperm.nodup_iff.mpr (artistNames_nodup rs)).sublist
      (List.take_sublist n _)
  · exact (List.sorted_insertionSort popDesc _).sublist (List.take_sublist n _)
  · intro e he
    have hmem : e ∈ (artistNames rs).map (fun a => (a, artistMean rs a)) :=
      hperm.mem_iff.mp ((List.take_sublist n _).subset he)
    rcases List.mem_map.mp hmem with ⟨a, _, rfl⟩
    rfl
  · intro hlen
    have hslen : (List.insertionSort popDesc
        ((artistNames rs).map (fun a => (a, artistMean rs a)))).length ≤ n := by
      rw [hperm.length_eq, List.length_map]
      exact hlen
    rw [get_top_artists, List.take_of_length_le hslen]
    exact hfstperm

theorem get_top_artists_spec_witness :
    (get_top_artists [genreRecA, genreRecB] 2).length ≤ 2 ∧
    ((get_top_artists [genreRecA, genreRecB] 2).map Prod.fst).Nodup ∧
    (get_top_artists [genreRecA, genreRecB] 2).Pairwise popDesc ∧
    (∀ e ∈ get_top_artists [genreRecA, genreRecB] 2,
      e.2 = artistMean [genreRecA, genreRecB] e.1) ∧
    ((artistNames [genreRecA, genreRecB]).length ≤ 2 →
      ((get_top_artists [genreRecA, genreRecB] 2).map Prod.fst).Perm
        (artistNames [genreRecA, genreRecB])) :=
  get_top_artists_spec [genreRecA, genreRecB] 2 (by norm_num)

/-! ## C6: correlation matrix -/

theorem fcov_comm (rs : List DerivedRecord) (f g : NumField) :
    fcov rs f g = fcov rs g f := by
  have hfun : (fun r => (fieldVal f r - fmean rs f) * (fieldVal g r - fmean rs g)) =
      (fun r => (fieldVal g r - fmean rs g) * (fieldVal f r - fmean rs f)) := by
    funext r
    ring
  rw [fcov, fcov, hfun]

theorem fvar_nonneg (rs : List DerivedRecord) (f : NumField) :
    0 ≤ fvar rs f := by
  unfold fvar fcov mean
  apply div_nonneg
  · apply List.sum_nonneg
    intro x hx
    rcases List.mem_map.mp hx with ⟨r, _, rfl⟩
    exact mul_self_nonneg _
  · exact Nat.cast_nonneg _

/-- C6: for a non-empty record set, `df[numerical_cols].corr()` (line 44)
is symmetric in its five numeric fields; a diagonal cell is exactly 1
whenever its field has nonzero variance; and any cell one of whose
fields has zero variance is NaN (`none`) — handled as a value, never a
crash. -/
theorem correlation_matrix_symm_diag (rs : List DerivedRecord) (h : rs ≠ []) :
    (∀ f g, get_correlation_matrix rs f g = get_correlation_matrix rs g f) ∧
    (∀ f, fvar rs f ≠ 0 → get_correlation_matrix rs f f = some 1) ∧
    (∀ f g, fvar rs f = 0 ∨ fvar rs g = 0 →
      get_correlation_matrix rs f g = none) := by
  refine ⟨?_, ?_, ?_⟩
  · intro f g
    unfold get_correlation_matrix
    by_cases h1 : fvar rs f = 0 ∨ fvar rs g = 0
    · rw [if_pos h1, if_pos h1.symm]
    · rw [if_neg h1, if_neg (fun hc => h1 hc.symm)]
      rw [fcov_comm rs f g, mul_comm ((fvar rs f : ℝ)) ((fvar rs g : ℝ))]
  · intro f hf
    unfold get_correlation_matrix
    rw [if_neg (by simp [hf])]
    have hv0 : (0 : ℝ) ≤ (fvar rs f : ℝ) := by
      exact_mod_cast fvar_nonneg rs f
    rw [show fcov rs f f = fvar rs f from rfl, Real.sqrt_mul_self hv0,
      div_self (by exact_mod_cast hf)]
  · intro f g hfg
    unfold get_correlation_matrix
    rw [if_pos hfg]

theorem correlation_matrix_symm_diag_witness :
    (∀ f g, get_correlation_matrix [genreRecA] f g =
      get_correlation_matrix [genreRecA] g f) ∧
    (∀ f, fvar [genreRecA] f ≠ 0 →
      get_correlation_matrix [genreRecA] f f = some 1) ∧
    (∀ f g, fvar [genreRecA] f = 0 ∨ fvar [genreRecA] g = 0 →
      get_correlation_matrix [genreRecA] f g = none) :=
  correlation_matrix_symm_diag [genreRecA] (by simp)

/-! ## C9: yearly popularity trend -/

theorem mem_insertYear (y z : ℕ) :
    ∀ l : List ℕ, z ∈ insertYear y l ↔ z = y ∨ z ∈ l := by
  intro l
  induction l with
  | nil => simp [insertYear]
  | cons a as ih =>
    simp only [insertYear]
    split_ifs with h1 h2
    · simp [List.mem_cons]
    · subst h2
      simp only [List.mem_cons]
      tauto
    · simp only [List.mem_cons, ih]
      tauto

theorem pairwise_insertYear (y : ℕ) :
    ∀ l : List ℕ, l.Pairwise (· < ·) → (insertYear y l).Pairwise (· < ·) := by
  intro l
  induction l with
  | nil =>
    intro _
    simp [insertYear]
  | cons a as ih =>
    intro hp
    rcases List.pairwise_cons.mp hp with ⟨ha, has⟩
    simp only [insertYear]
    split_ifs with h1 h2
    · refine List.pairwise_cons.mpr ⟨?_, hp⟩
      intro b hb
      rcases List.mem_cons.mp hb with rfl | hb2
      · exact h1
      · exact lt_trans h1 (ha b hb2)
    · exact hp
    · have h3 : a < y := by omega
      refine List.pairwise_cons.mpr ⟨?_, ih has⟩
      intro b hb
      rcases (mem_insertYear y b as).mp hb with rfl | hb2
      · exact h3
      · exact ha b hb2

theorem pairwise_yearKeys (rs : List DerivedRecord) :
    (yearKeys rs).Pairwise (· < ·) := by
  unfold yearKeys
  induction rs with
  | nil => exact List.Pairwise.nil
  | cons r rest ih => exact pairwise_insertYear _ _ ih

theorem mem_yearKeys (rs : List DerivedRecord) (y : ℕ) :
    y ∈ yearKeys rs ↔ ∃ r ∈ rs, r.release_year = y := by
  unfold yearKeys
  induction rs with
  | nil => simp
  | cons r rest ih =>
    simp only [List.foldr_cons]
    rw [mem_insertYear, ih]
    constructor
    · intro hy
      rcases hy with rfl | ⟨r0, hm, hy0⟩
      · exact ⟨r, List.mem_cons_self r rest, rfl⟩
      · exact ⟨r0, List.mem_cons_of_mem r hm, hy0⟩
    · intro hy
      rcases hy with ⟨r0, hm, hy0⟩
      rcases List.mem_cons.mp hm with rfl | hm0
      · exact Or.inl hy0.symm
      · exact Or.inr ⟨r0, hm0, hy0⟩

theorem map_fst_popularity_by_year (rs : List DerivedRecord) :
    (popularity_by_year rs).map Prod.fst = yearKeys rs := by
  rw [popularity_by_year, List.map_map]
  induction yearKeys rs with
  | nil => rfl
  | cons a as ih => simp [ih]

/-- C9: the output of the yearly trend of line 112 is strictly ascending
by year (the sort key is the year, not the popularity value), contains
no duplicate years, and has exactly one entry per distinct release year
occurring in the input. -/
theorem popularity_by_year_spec (rs : List DerivedRecord) :
    (popularity_by_year rs).Pairwise (fun a b => a.1 < b.1) ∧
    ((popularity_by_year rs).map Prod.fst).Nodup ∧
    ∀ y, (y ∈ (popularity_by_year rs).map Prod.fst ↔
      ∃ r ∈ rs, r.release_year = y) := by
  refine ⟨?_, ?_, ?_⟩
  · rw [popularity_by_year]
    exact List.pairwise_map.mpr (pairwise_yearKeys rs)
  · rw [map_fst_popularity_by_year]
    exact (pairwise_yearKeys rs).imp ne_of_lt
  · intro y
    rw [map_fst_popularity_by_year]
    exact mem_yearKeys rs y

end SpotifyApp
